import Mathlib

/-!
Verification of the `/api/chat` handler of `apps/chat-worker/src/index.ts`.

The handler is embedded shallowly: the parsed JSON request body, the
upstream gateway client, and the thrown JavaScript error values are made
explicit inputs, and the handler becomes a pure function from those inputs
to an outcome (an HTTP response, or an exception escaping the handler)
together with a record of which upstream operations were invoked.
-/

namespace ChatWorker

/-- A JSON value, as produced by `c.req.json()` at runtime or returned by
the upstream completions endpoint.  Runtime JSON carries no static types,
so the `prompt` field may be any of these at the JavaScript level. -/
inductive JsonValue where
  | jnull
  | jbool (b : Bool)
  | jnum (n : Int)
  | jstr (s : String)
  | jarr (elems : List JsonValue)
  | jobj (fields : List (String × JsonValue))

/-- JavaScript truthiness of a JSON value: `null`, `false`, `0` and `""`
are falsy; every other JSON value (including arrays and objects) is
truthy.  This is what `if (!prompt)` tests. -/
def truthy : JsonValue → Bool
  | .jnull => false
  | .jbool b => b
  | .jnum n => n != 0
  | .jstr s => s != ""
  | .jarr _ => true
  | .jobj _ => true

/-- Truthiness of the destructured `prompt` field: an absent field
destructures to `undefined`, which is falsy. -/
def truthyField : Option JsonValue → Bool
  | none => false
  | some v => truthy v

/-- Whether a JSON value is a non-empty string (the invariant the spec
states for prompts that reach the upstream call). -/
def isNonEmptyString : JsonValue → Bool
  | .jstr s => s != ""
  | _ => false

/-- The `response` object possibly attached to a thrown error.
`status` is `err.response.status` (`none` when absent or nullish).
`text` models `err.response.text`: `none` when `text` is not a function
(so `typeof err?.response?.text === 'function'` is false), `some (.ok t)`
when calling it resolves with the string `t`, and `some (.error ())` when
calling it throws. -/
structure JsResponse where
  status : Option Nat
  text : Option (Except Unit String)

/-- A thrown JavaScript error as inspected by the catch block: either a
nullish value (every optional-chain access yields `undefined`) or an
object with optional `status`, `response` and `message` fields. -/
inductive JsErr where
  | nullish
  | obj (status : Option Nat) (response : Option JsResponse) (message : Option String)

/-- `err?.status` (`none` for absent or nullish). -/
def errStatus : JsErr → Option Nat
  | .nullish => none
  | .obj s _ _ => s

/-- `err?.response` (`none` for absent or nullish). -/
def errResponse : JsErr → Option JsResponse
  | .nullish => none
  | .obj _ r _ => r

/-- `err?.message` (`none` for absent or nullish; an empty-string message
is `some ""`, which is present, not nullish). -/
def errMessage : JsErr → Option String
  | .nullish => none
  | .obj _ _ m => m

/-- The body of an HTTP response produced by the handler: either a JSON
value serialized by `c.json(...)`, or a raw text body passed verbatim to
`new Response(text, ...)`. -/
inductive RespBody where
  | json (v : JsonValue)
  | raw (t : String)

/-- An HTTP response as constructed by the handler.  Every path of this
handler sets content-type `application/json` (both `c.json` and the
explicit `new Response(text, { headers: { 'content-type':
'application/json' } })`). -/
structure HttpResponse where
  status : Nat
  body : RespBody
  contentTypeJson : Bool

/-- The JSON error envelope `{ error: msg }`. -/
def errorEnvelope (msg : String) : JsonValue :=
  JsonValue.jobj [("error", JsonValue.jstr msg)]

/-- The validation response: `c.json({ error: 'No prompt provided' }, 400)`. -/
def badRequestResponse : HttpResponse :=
  { status := 400, body := RespBody.json (errorEnvelope "No prompt provided"), contentTypeJson := true }

/-- `err?.status ?? err?.response?.status ?? 502`: the status determined
at the top of the catch block. -/
def determinedStatus (err : JsErr) : Nat :=
  (errStatus err).getD (((errResponse err).bind JsResponse.status).getD 502)

/-- The generic fallback of the catch block:
`c.json({ error: err?.message ?? 'Upstream error' }, 502)`.  The status
here is the literal `502`, not `determinedStatus`. -/
def fallbackResponse (err : JsErr) : HttpResponse :=
  { status := 502
  , body := RespBody.json (errorEnvelope ((errMessage err).getD "Upstream error"))
  , contentTypeJson := true }

/-- The catch block: inside a nested try, compute the determined status;
if `err.response.text` is a function, await it and forward the raw text
with content-type `application/json` and the determined status.  If the
nested try throws (here: `text()` rejecting), the empty nested catch
swallows it; control then reaches the generic fallback. -/
def handleCatch (err : JsErr) : HttpResponse :=
  match (errResponse err).bind JsResponse.text with
  | some (Except.ok t) =>
      { status := determinedStatus err, body := RespBody.raw t, contentTypeJson := true }
  | some (Except.error _) => fallbackResponse err
  | none => fallbackResponse err

/-- The worker environment bindings used by the handler:
`AI_GATEWAY_ID` and `AI_GATEWAY_TOKEN`.  (`AI` itself is modelled through
`Upstream.getUrl` below.) -/
structure Env where
  gatewayId : String
  gatewayToken : String

/-- One message of the completions request. -/
structure ChatMessage where
  role : String
  content : JsonValue

/-- The single upstream chat-completion request as constructed by the
handler: the `OpenAI` client configuration (`baseURL`, `apiKey`, the
`cf-aig-authorization` default header) together with the
`completions.create` arguments (`model`, `messages`). -/
structure ChatCompletionCall where
  baseURL : String
  apiKey : String
  aigAuthorization : String
  model : String
  messages : List ChatMessage

/-- The behaviour of the outside world for one request:
`getUrl gid` is the outcome of `c.env.AI.gateway(gid).getUrl()`, and
`create call` the outcome of `client.chat.completions.create(...)` for a
given constructed call.  Either may throw a JavaScript error. -/
structure Upstream where
  getUrl : String → Except JsErr String
  create : ChatCompletionCall → Except JsErr JsonValue

/-- What the handler invocation produces: an HTTP response, or an
exception escaping the handler to the framework. -/
inductive HandlerResult where
  | response (r : HttpResponse)
  | thrown

/-- The observable outcome of one handler invocation: its result plus
which upstream operations were invoked and, when `completions.create`
was invoked, the call that was issued. -/
structure Outcome where
  result : HandlerResult
  getUrlCalled : Bool
  createCalled : Bool
  call : Option ChatCompletionCall

/-- The `POST /api/chat` handler.  `parsed` is the outcome of
`await c.req.json()` followed by destructuring `prompt`: `Except.error ()`
when the body is malformed (the parse rejects — this happens outside the
try/catch, so the exception escapes the handler), and `Except.ok p` with
`p` the value of the `prompt` field (`none` when absent). -/
def postChat (env : Env) (up : Upstream) (parsed : Except Unit (Option JsonValue)) : Outcome :=
  match parsed with
  | Except.error _ =>
      { result := HandlerResult.thrown, getUrlCalled := false, createCalled := false, call := none }
  | Except.ok promptField =>
      match promptField with
      | none =>
          { result := HandlerResult.response badRequestResponse
          , getUrlCalled := false, createCalled := false, call := none }
      | some prompt =>
          if truthy prompt then
            match up.getUrl env.gatewayId with
            | Except.error e =>
                { result := HandlerResult.response (handleCatch e)
                , getUrlCalled := true, createCalled := false, call := none }
            | Except.ok url =>
                let call : ChatCompletionCall :=
                  { baseURL := url ++ "/compat"
                  , apiKey := "unused"
                  , aigAuthorization := "Bearer " ++ env.gatewayToken
                  , model := "google-ai-studio/gemini-2.5"
                  , messages := [{ role := "user", content := prompt }] }
                match up.create call with
                | Except.ok completion =>
                    { result := HandlerResult.response
                        { status := 200, body := RespBody.json completion, contentTypeJson := true }
                    , getUrlCalled := true, createCalled := true, call := some call }
                | Except.error e =>
                    { result := HandlerResult.response (handleCatch e)
                    , getUrlCalled := true, createCalled := true, call := some call }
          else
            { result := HandlerResult.response badRequestResponse
            , getUrlCalled := false, createCalled := false, call := none }

/-- A concrete environment used by witnesses. -/
def sampleEnv : Env :=
  { gatewayId := "my-gateway", gatewayToken := "tok123" }

/-- A concrete completion object used by witnesses. -/
def sampleCompletion : JsonValue :=
  JsonValue.jobj [("id", JsonValue.jstr "cmpl-1"), ("model", JsonValue.jstr "google-ai-studio/gemini-2.5")]

/-- A concrete upstream whose calls all succeed, used by witnesses. -/
def sampleUpstream : Upstream :=
  { getUrl := fun _ => Except.ok "https://gateway.example/v1"
  , create := fun _ => Except.ok sampleCompletion }

/-- An upstream error carrying `status: 429` and a readable response body
(the spec's rate-limit example). -/
def rateLimitErr : JsErr :=
  JsErr.obj (some 429)
    (some { status := none, text := some (Except.ok "\x7b\"error\":\"rate limited\"\x7d") })
    (some "429 rate limited")

/-- An upstream whose completions call rejects with `rateLimitErr`. -/
def rateLimitUpstream : Upstream :=
  { getUrl := fun _ => Except.ok "https://gateway.example/v1"
  , create := fun _ => Except.error rateLimitErr }

/-- Claim C1: a falsy `prompt` (absent, `null`, `""`, or any other falsy
JSON value) yields status 400 with body `\x7b "error": "No prompt provided" \x7d`,
and neither the gateway URL resolution nor the completions call is made. -/
theorem falsy_prompt_rejected (env : Env) (up : Upstream) (p : Option JsonValue)
    (h : truthyField p = false) :
    (postChat env up (Except.ok p)).result = HandlerResult.response badRequestResponse
      ∧ badRequestResponse
          = { status := 400, body := RespBody.json (errorEnvelope "No prompt provided")
            , contentTypeJson := true }
      ∧ (postChat env up (Except.ok p)).getUrlCalled = false
      ∧ (postChat env up (Except.ok p)).createCalled = false := by
  cases p with
  | none => exact ⟨rfl, rfl, rfl, rfl⟩
  | some v =>
      simp only [truthyField] at h
      refine ⟨?_, rfl, ?_, ?_⟩ <;> simp [postChat, h]

/-- Witness for C1 at the concrete input `prompt = ""`. -/
theorem falsy_prompt_rejected_witness :
    (postChat sampleEnv sampleUpstream (Except.ok (some (JsonValue.jstr "")))).result
        = HandlerResult.response badRequestResponse
      ∧ badRequestResponse
          = { status := 400, body := RespBody.json (errorEnvelope "No prompt provided")
            , contentTypeJson := true }
      ∧ (postChat sampleEnv sampleUpstream (Except.ok (some (JsonValue.jstr "")))).getUrlCalled = false
      ∧ (postChat sampleEnv sampleUpstream (Except.ok (some (JsonValue.jstr "")))).createCalled = false :=
  falsy_prompt_rejected sampleEnv sampleUpstream (some (JsonValue.jstr "")) rfl

/-- Claim C2: for a truthy prompt, when the upstream completions call
returns a completion object `X`, the handler returns status 200 with `X`
as the response body, unchanged. -/
theorem success_passthrough (env : Env) (up : Upstream) (p X : JsonValue) (url : String)
    (hp : truthy p = true)
    (hu : up.getUrl env.gatewayId = Except.ok url)
    (hc : ∀ cl, up.create cl = Except.ok X) :
    (postChat env up (Except.ok (some p))).result
      = HandlerResult.response { status := 200, body := RespBody.json X, contentTypeJson := true } := by
  simp [postChat, hp, hu, hc]

/-- Witness for C2 at a concrete prompt and completion object. -/
theorem success_passthrough_witness :
    (postChat sampleEnv sampleUpstream (Except.ok (some (JsonValue.jstr "hello")))).result
      = HandlerResult.response
          { status := 200, body := RespBody.json sampleCompletion, contentTypeJson := true } :=
  success_passthrough sampleEnv sampleUpstream (JsonValue.jstr "hello") sampleCompletion
    "https://gateway.example/v1" rfl rfl (fun _ => rfl)

/-- Claim C3: when the upstream call rejects with an error carrying a
readable response body (a `response` whose `text` resolves with `t`), the
handler forwards `t` verbatim with content-type `application/json` and
status `err.status`, else `err.response.status`, else 502. -/
theorem upstream_error_body_forwarded (env : Env) (up : Upstream) (p : JsonValue) (url : String)
    (s rs : Option Nat) (t : String) (m : Option String)
    (hp : truthy p = true)
    (hu : up.getUrl env.gatewayId = Except.ok url)
    (hc : ∀ cl, up.create cl
        = Except.error (JsErr.obj s (some { status := rs, text := some (Except.ok t) }) m)) :
    (postChat env up (Except.ok (some p))).result
      = HandlerResult.response
          { status := s.getD (rs.getD 502), body := RespBody.raw t, contentTypeJson := true } := by
  simp [postChat, hp, hu, hc, handleCatch, determinedStatus, errStatus, errResponse]

/-- Witness for C3: the spec's example error with `status: 429` and body
`\x7b"error":"rate limited"\x7d` is forwarded as a 429 with that exact body. -/
theorem upstream_error_body_forwarded_witness :
    (postChat sampleEnv rateLimitUpstream (Except.ok (some (JsonValue.jstr "hello")))).result
      = HandlerResult.response
          { status := 429, body := RespBody.raw "\x7b\"error\":\"rate limited\"\x7d"
          , contentTypeJson := true } :=
  upstream_error_body_forwarded sampleEnv rateLimitUpstream (JsonValue.jstr "hello")
    "https://gateway.example/v1" (some 429) none "\x7b\"error\":\"rate limited\"\x7d"
    (some "429 rate limited") rfl rfl (fun _ => rfl)

/-- An upstream error carrying `status: 429` and a message but no
`response` object: it has no readable body, so the generic fallback runs. -/
def statusOnlyErr : JsErr :=
  JsErr.obj (some 429) none (some "rate limited")

/-- An upstream whose completions call rejects with `statusOnlyErr`. -/
def statusOnlyUpstream : Upstream :=
  { getUrl := fun _ => Except.ok "https://gateway.example/v1"
  , create := fun _ => Except.error statusOnlyErr }

/-- Counterexample to claim C4 as stated: for an error with
`status: 429` but no readable response body, the generic fallback answers
with status 502, not with the determined status 429 — the literal `502`
in `c.json(\x7b error: ... \x7d, 502)` ignores `err.status`. -/
theorem fallback_status_counterexample :
    (postChat sampleEnv statusOnlyUpstream (Except.ok (some (JsonValue.jstr "hello")))).result
        = HandlerResult.response
            { status := 502, body := RespBody.json (errorEnvelope "rate limited")
            , contentTypeJson := true }
      ∧ determinedStatus statusOnlyErr = 429
      ∧ (502 : Nat) ≠ 429 := by
  refine ⟨?_, rfl, by decide⟩
  simp [postChat, statusOnlyUpstream, handleCatch, statusOnlyErr, errResponse, fallbackResponse,
    errMessage, truthy]

/-- Claim C4 as amended: when the upstream call rejects with an error
that has no readable response body, the handler returns
`\x7b error: err.message or "Upstream error" \x7d` with status 502
unconditionally (the determined status is used only on the
body-forwarding path). -/
theorem fallback_envelope (env : Env) (up : Upstream) (p : JsonValue) (url : String) (err : JsErr)
    (hp : truthy p = true)
    (hu : up.getUrl env.gatewayId = Except.ok url)
    (hr : (errResponse err).bind JsResponse.text = none)
    (hc : ∀ cl, up.create cl = Except.error err) :
    (postChat env up (Except.ok (some p))).result
      = HandlerResult.response
          { status := 502, body := RespBody.json (errorEnvelope ((errMessage err).getD "Upstream error"))
          , contentTypeJson := true } := by
  simp [postChat, hp, hu, hc, handleCatch, hr, fallbackResponse]

/-- Witness for the amended C4: a plain error with message
`"network down"` and no response object yields 502 with body
`\x7b "error": "network down" \x7d`. -/
theorem fallback_envelope_witness :
    (postChat sampleEnv
        { getUrl := fun _ => Except.ok "https://gateway.example/v1"
        , create := fun _ => Except.error (JsErr.obj none none (some "network down")) }
        (Except.ok (some (JsonValue.jstr "hello")))).result
      = HandlerResult.response
          { status := 502, body := RespBody.json (errorEnvelope "network down")
          , contentTypeJson := true } :=
  fallback_envelope sampleEnv _ (JsonValue.jstr "hello") "https://gateway.example/v1"
    (JsErr.obj none none (some "network down")) rfl rfl rfl (fun _ => rfl)

/-- Counterexample to claim C5 as stated: a malformed (non-JSON) body is
parsed outside the try/catch, so the parse rejection escapes the handler
instead of being surfaced as a status-400 response. -/
theorem parse_failure_escapes_counterexample :
    (postChat sampleEnv sampleUpstream (Except.error ())).result = HandlerResult.thrown
      ∧ (postChat sampleEnv sampleUpstream (Except.error ())).result
          ≠ HandlerResult.response badRequestResponse := by
  refine ⟨rfl, ?_⟩
  intro h
  simp [postChat] at h

/-- Claim C5 as amended: once the body has parsed, every failure
terminates the single request-handling attempt in exactly one HTTP
response (the handler never rethrows and never retries); a parse failure,
however, propagates out of the handler as an exception. -/
theorem one_response_per_parsed_request (env : Env) (up : Upstream) (p : Option JsonValue) :
    (∃ r, (postChat env up (Except.ok p)).result = HandlerResult.response r)
      ∧ (postChat env up (Except.error ())).result = HandlerResult.thrown := by
  refine ⟨?_, rfl⟩
  unfold postChat
  cases p with
  | none => exact ⟨badRequestResponse, rfl⟩
  | some v =>
      by_cases hv : truthy v
      · simp only [hv, if_true]
        split
        · exact ⟨_, rfl⟩
        · split
          · exact ⟨_, rfl⟩
          · exact ⟨_, rfl⟩
      · simp only [hv, if_false]
        exact ⟨badRequestResponse, rfl⟩

/-- Counterexample to claim C6 as stated: the request body
`\x7b "prompt": 42 \x7d` carries a prompt that is not a non-empty string, yet
it passes the `!prompt` truthiness check and the upstream completions
call is attempted with `42` as the message content. -/
theorem nonstring_prompt_counterexample :
    (postChat sampleEnv sampleUpstream (Except.ok (some (JsonValue.jnum 42)))).createCalled = true
      ∧ (Option.map (fun cl => cl.messages.map (fun msg => isNonEmptyString msg.content))
           (postChat sampleEnv sampleUpstream (Except.ok (some (JsonValue.jnum 42)))).call)
          = some [false] :=
  ⟨rfl, rfl⟩

/-- Claim C6 as amended: whenever the upstream completions call is
attempted, the prompt taken from the request body is a truthy JSON value
— in particular, a string prompt that reaches the upstream call is
non-empty — and every falsy prompt fails validation before any upstream
call. -/
theorem upstream_prompt_truthy (env : Env) (up : Upstream) (p : Option JsonValue)
    (h : (postChat env up (Except.ok p)).createCalled = true) :
    truthyField p = true ∧ ∀ s, p = some (JsonValue.jstr s) → s ≠ "" := by
  cases p with
  | none => simp [postChat] at h
  | some v =>
      by_cases hv : truthy v
      · refine ⟨by simpa [truthyField] using hv, ?_⟩
        intro s hs
        injection hs with hvs
        subst hvs
        simpa [truthy] using hv
      · simp [postChat, hv] at h

/-- Witness for the amended C6 at the concrete prompt `"hello"`, for
which the upstream call is attempted. -/
theorem upstream_prompt_truthy_witness :
    truthyField (some (JsonValue.jstr "hello")) = true ∧ ("hello" : String) ≠ "" :=
  ⟨(upstream_prompt_truthy sampleEnv sampleUpstream (some (JsonValue.jstr "hello")) rfl).1,
   (upstream_prompt_truthy sampleEnv sampleUpstream (some (JsonValue.jstr "hello")) rfl).2
     "hello" rfl⟩

/-- Claim C7: whenever the completions call is issued, it uses the fixed
model identifier, a single user-role message carrying the validated
prompt, the placeholder API key, the gateway token as a bearer credential
in the `cf-aig-authorization` header, and the resolved gateway URL
suffixed with `/compat`. -/
theorem upstream_call_shape (env : Env) (up : Upstream) (p : JsonValue) (url : String)
    (cl : ChatCompletionCall)
    (hu : up.getUrl env.gatewayId = Except.ok url)
    (h : (postChat env up (Except.ok (some p))).call = some cl) :
    cl.model = "google-ai-studio/gemini-2.5"
      ∧ cl.messages = [{ role := "user", content := p }]
      ∧ cl.apiKey = "unused"
      ∧ cl.aigAuthorization = "Bearer " ++ env.gatewayToken
      ∧ cl.baseURL = url ++ "/compat" := by
  by_cases hv : truthy p
  · simp only [postChat, hv, if_true, hu] at h
    split at h <;>
    · injection h with h2
      subst h2
      exact ⟨rfl, rfl, rfl, rfl, rfl⟩
  · simp [postChat, hv] at h

/-- The call `postChat` issues for the sample environment, gateway URL
and prompt `"hello"`. -/
def sampleCall : ChatCompletionCall :=
  { baseURL := "https://gateway.example/v1" ++ "/compat"
  , apiKey := "unused"
  , aigAuthorization := "Bearer " ++ "tok123"
  , model := "google-ai-studio/gemini-2.5"
  , messages := [{ role := "user", content := JsonValue.jstr "hello" }] }

/-- Witness for C7 at the sample environment and prompt `"hello"`. -/
theorem upstream_call_shape_witness :
    sampleCall.model = "google-ai-studio/gemini-2.5"
      ∧ sampleCall.messages = [{ role := "user", content := JsonValue.jstr "hello" }]
      ∧ sampleCall.apiKey = "unused"
      ∧ sampleCall.aigAuthorization = "Bearer " ++ sampleEnv.gatewayToken
      ∧ sampleCall.baseURL = "https://gateway.example/v1" ++ "/compat" :=
  upstream_call_shape sampleEnv sampleUpstream (JsonValue.jstr "hello")
    "https://gateway.example/v1" sampleCall rfl rfl

/-- A gateway-resolution failure: `getUrl` rejects with this error. -/
def gatewayErr : JsErr :=
  JsErr.obj none none (some "gateway down")

/-- An upstream whose gateway URL resolution rejects with `gatewayErr`. -/
def failingGatewayUpstream : Upstream :=
  { getUrl := fun _ => Except.error gatewayErr
  , create := fun _ => Except.ok sampleCompletion }

/-- Claim C8: when resolving the gateway base URL fails, the completions
call is never issued, the failure lands in the same catch block
(`handleCatch`, with its best-effort status/message extraction defaulting
to 502), and the response equals the one produced when the completions
call itself rejects with the same error. -/
theorem gateway_resolution_failure (env : Env) (up : Upstream) (p : JsonValue) (e : JsErr)
    (hp : truthy p = true)
    (hu : up.getUrl env.gatewayId = Except.error e) :
    (postChat env up (Except.ok (some p))).createCalled = false
      ∧ (postChat env up (Except.ok (some p))).result = HandlerResult.response (handleCatch e)
      ∧ ∀ up2 : Upstream, ∀ url : String,
          up2.getUrl env.gatewayId = Except.ok url
          → (∀ cl, up2.create cl = Except.error e)
          → (postChat env up2 (Except.ok (some p))).result
              = (postChat env up (Except.ok (some p))).result := by
  refine ⟨?_, ?_, ?_⟩
  · simp [postChat, hp, hu]
  · simp [postChat, hp, hu]
  · intro up2 url h1 h2
    simp [postChat, hp, hu, h1, h2]

/-- Witness for C8: a concrete gateway-resolution failure produces the
catch-block response without any completions call. -/
theorem gateway_resolution_failure_witness :
    (postChat sampleEnv failingGatewayUpstream
        (Except.ok (some (JsonValue.jstr "hello")))).createCalled = false
      ∧ (postChat sampleEnv failingGatewayUpstream
            (Except.ok (some (JsonValue.jstr "hello")))).result
          = HandlerResult.response (handleCatch gatewayErr) :=
  ⟨(gateway_resolution_failure sampleEnv failingGatewayUpstream (JsonValue.jstr "hello")
      gatewayErr rfl rfl).1,
   (gateway_resolution_failure sampleEnv failingGatewayUpstream (JsonValue.jstr "hello")
      gatewayErr rfl rfl).2.1⟩

/-- Claim C9: when reading the upstream error body itself fails
(`text()` rejects), the secondary failure is swallowed by the empty
nested catch and the handler answers with the generic fallback envelope
built from the primary error, so the caller never observes the cascading
failure. -/
theorem extraction_failure_swallowed (env : Env) (up : Upstream) (p : JsonValue) (url : String)
    (s rs : Option Nat) (m : Option String)
    (hp : truthy p = true)
    (hu : up.getUrl env.gatewayId = Except.ok url)
    (hc : ∀ cl, up.create cl
        = Except.error (JsErr.obj s (some { status := rs, text := some (Except.error ()) }) m)) :
    (postChat env up (Except.ok (some p))).result
      = HandlerResult.response
          (fallbackResponse (JsErr.obj s (some { status := rs, text := some (Except.error ()) }) m))
      ∧ fallbackResponse (JsErr.obj s (some { status := rs, text := some (Except.error ()) }) m)
          = { status := 502, body := RespBody.json (errorEnvelope (m.getD "Upstream error"))
            , contentTypeJson := true } := by
  refine ⟨?_, rfl⟩
  simp [postChat, hp, hu, hc, handleCatch, errResponse]

/-- An error whose attached response's `text()` itself rejects. -/
def throwingTextErr : JsErr :=
  JsErr.obj (some 500) (some { status := none, text := some (Except.error ()) }) (some "boom")

/-- An upstream whose completions call rejects with `throwingTextErr`. -/
def throwingTextUpstream : Upstream :=
  { getUrl := fun _ => Except.ok "https://gateway.example/v1"
  , create := fun _ => Except.error throwingTextErr }

/-- Witness for C9 at a concrete error whose `text()` rejects. -/
theorem extraction_failure_swallowed_witness :
    (postChat sampleEnv throwingTextUpstream (Except.ok (some (JsonValue.jstr "hello")))).result
        = HandlerResult.response (fallbackResponse throwingTextErr)
      ∧ fallbackResponse throwingTextErr
          = { status := 502, body := RespBody.json (errorEnvelope "boom"), contentTypeJson := true } :=
  extraction_failure_swallowed sampleEnv throwingTextUpstream (JsonValue.jstr "hello")
    "https://gateway.example/v1" (some 500) none (some "boom") rfl rfl (fun _ => rfl)

/-- Claim C10: in the generic fallback, the default message
"Upstream error" is substituted only for a nullish `err.message`; a
present-but-empty message yields body `\x7b "error": "" \x7d`, and any present
message is forwarded as-is. -/
theorem empty_message_forwarded (s : Option Nat) (m : String) :
    handleCatch (JsErr.obj s none (some ""))
        = { status := 502, body := RespBody.json (errorEnvelope ""), contentTypeJson := true }
      ∧ handleCatch (JsErr.obj s none (some m))
        = { status := 502, body := RespBody.json (errorEnvelope m), contentTypeJson := true }
      ∧ handleCatch (JsErr.obj s none none)
        = { status := 502, body := RespBody.json (errorEnvelope "Upstream error")
          , contentTypeJson := true } :=
  ⟨rfl, rfl, rfl⟩

end ChatWorker
